import Mathlib

/-!
Verification of the story-agent Flask service (src/app.py, src/utils.py)
against its natural-language specification.

The request handler `story_agent` of src/app.py is shallowly embedded:
JSON values become the inductive `Json`, Python dictionary/list operations
become total Lean functions returning `Except String _` where the Python
operation can raise (the `String` stands for `str(e)` of the raised
exception; the exact wording of Python exception texts is abstracted as a
short tag, since the handler only forwards the text opaquely), and the
external Groq generation call becomes an explicit collaborator parameter
`gen : String → Except String String` taking the built prompt. The
nondeterministic ingredients of the success envelope, `uuid4()` for the
task and context ids and `datetime.utcnow().isoformat()` for the
timestamp, become the parameters `taskId`, `ctxId` and `ts`.
-/

namespace StoryAgent

/-- A JSON value, as produced by Flask request.get_json: Python None,
bool, int, str, list and dict. Objects are association lists of
string keys, in insertion order, as in a Python dict. -/
inductive Json where
  | null : Json
  | bool : Bool → Json
  | num : Int → Json
  | str : String → Json
  | arr : List Json → Json
  | obj : List (String × Json) → Json
deriving Repr

/-- Python truthiness of a JSON value (bool(v)). -/
def Json.truthy : Json → Bool
  | .null => false
  | .bool b => b
  | .num n => n != 0
  | .str s => s != ""
  | .arr xs => !xs.isEmpty
  | .obj kvs => !kvs.isEmpty

/-- Whether the value is exactly the given Python string (v == s; comparing
a non-string to a string literal is False in Python, never an error). -/
def Json.isStr : Json → String → Bool
  | .str t, s => t == s
  | _, _ => false

/-- Python dict.get(k): None when the key is absent; raises AttributeError
when the receiver is not a dict. -/
def pyGet (v : Json) (k : String) : Except String Json :=
  match v with
  | .obj kvs => .ok ((kvs.lookup k).getD .null)
  | _ => .error "AttributeError: no attribute get"

/-- Python dict.get(k, d): the default d when the key is absent; raises
AttributeError when the receiver is not a dict. -/
def pyGetD (v : Json) (k : String) (d : Json) : Except String Json :=
  match v with
  | .obj kvs => .ok ((kvs.lookup k).getD d)
  | _ => .error "AttributeError: no attribute get"

/-- Python `k in v`. In the handler this always runs on a dict (a
preceding .get already raised otherwise), so non-dict receivers are
modelled as the TypeError Python raises for unsized values. -/
def pyContains (v : Json) (k : String) : Except String Bool :=
  match v with
  | .obj kvs => .ok (kvs.lookup k).isSome
  | _ => .error "TypeError: argument not iterable"

/-- Python v[k] on a dict: KeyError when absent, TypeError otherwise.
In the handler this runs only after `k in v` succeeded on a dict. -/
def pyIndexKey (v : Json) (k : String) : Except String Json :=
  match v with
  | .obj kvs =>
    match kvs.lookup k with
    | some x => .ok x
    | none => .error "KeyError"
  | _ => .error "TypeError: not subscriptable"

/-- Python v[-1]: the last element of a list, the last character of a
string; a dict looks up the key -1 (absent for JSON-derived dicts, so
KeyError); other values raise TypeError. In the handler this runs only
on truthy values, so the empty cases are unreachable there. -/
def pyIndexLast (v : Json) : Except String Json :=
  match v with
  | .arr xs =>
    match xs.getLast? with
    | some x => .ok x
    | none => .error "IndexError"
  | .str s =>
    match s.data.getLast? with
    | some c => .ok (.str (String.mk [c]))
    | none => .error "IndexError"
  | .obj _ => .error "KeyError"
  | _ => .error "TypeError: not subscriptable"

/-- Python `for part in v`: a list iterates its elements, a string its
one-character substrings, a dict its keys; other values raise TypeError. -/
def pyIter (v : Json) : Except String (List Json) :=
  match v with
  | .arr xs => .ok xs
  | .str s => .ok (s.data.map fun c => .str (String.mk [c]))
  | .obj kvs => .ok (kvs.map fun kv => .str kv.1)
  | _ => .error "TypeError: not iterable"

/-- Python str.strip() of line 106/122: remove leading and trailing
whitespace. Defined structurally over the character list so that it
evaluates by kernel reduction; Char.isWhitespace covers the ASCII
whitespace Python strips (the handler never meets the exotic Unicode
cases). -/
def pyStrip (s : String) : String :=
  String.mk (((s.data.dropWhile Char.isWhitespace).reverse.dropWhile Char.isWhitespace).reverse)

/-- The fixed prompt template of src/app.py line 117. -/
def prompt (textInput : String) : String :=
  "Write a short story (under 250 words) based on the phrase: \x27" ++ textInput ++ "\x27"

/-- JSON-RPC error envelope without a data field (lines 75, 96, 110). -/
def rpcErr (idv : Json) (code : Int) (msg : String) : Json :=
  .obj [("jsonrpc", .str "2.0"), ("id", idv),
        ("error", .obj [("code", .num code), ("message", .str msg)])]

/-- JSON-RPC error envelope with a data.details field (line 149). -/
def rpcErrData (idv : Json) (code : Int) (msg : String) (details : String) : Json :=
  .obj [("jsonrpc", .str "2.0"), ("id", idv),
        ("error", .obj [("code", .num code), ("message", .str msg),
                        ("data", .obj [("details", .str details)])])]

/-- The A2A TaskResult built on lines 125-140. -/
def taskResult (taskId ctxId ts story : String) : Json :=
  .obj [("id", .str taskId), ("contextId", .str ctxId),
        ("status", .obj [("state", .str "completed"), ("timestamp", .str ts),
          ("message", .obj [("kind", .str "message"), ("role", .str "agent"),
            ("parts", .arr [.obj [("kind", .str "text"), ("text", .str story)]])])]),
        ("artifacts", .arr []), ("history", .arr []), ("kind", .str "task")]

/-- JSON-RPC success envelope (lines 142-146). -/
def rpcSuccess (idv result : Json) : Json :=
  .obj [("jsonrpc", .str "2.0"), ("id", idv), ("result", result)]

/-- The message text of the -32600 error (line 80). -/
def msg32600 : String := "Invalid Request: jsonrpc must be \x272.0\x27 and \x27id\x27 is required."

/-- The message text of the -32601 error (line 99). -/
def msg32601 : String := "Unsupported method"

/-- The message text of the -32602 error (line 113). -/
def msg32602 : String := "Missing text input in request."

/-- The outcome of one POST: either the view function returned a JSON
body with an HTTP status, or an exception escaped the view function and
Flask served its default (non-JSON) 500 error page. -/
inductive HandlerOutcome where
  | resp : Nat → Json → HandlerOutcome
  | flaskError : HandlerOutcome
deriving Repr

/-- The text-extraction loop of lines 103-107: text_input starts as "",
and the loop breaks at the first part whose kind is "text" and whose text
value is truthy, assigning that value stripped. A part that is not a dict
raises at part.get; a truthy non-string text raises at .strip(). The
short-circuit of the Python `and` is immaterial: both .get calls succeed
or fail together with the dict-ness of the part. -/
def loopExtract : List Json → Except String String
  | [] => .ok ""
  | p :: rest =>
    match pyGet p "kind" with
    | .error e => .error e
    | .ok kind =>
      match pyGet p "text" with
      | .error e => .error e
      | .ok txt =>
        if kind.isStr "text" && txt.truthy then
          match txt with
          | .str s => .ok (pyStrip s)
          | _ => .error "AttributeError: no attribute strip"
        else loopExtract rest

/-- Lines 102-146, from the extracted parts value onward: iterate the
parts, extract the text input, reject an empty extraction with -32602,
otherwise call the generation collaborator with the fixed prompt and wrap
its stripped output in the TaskResult envelope. A raised error becomes
`.error` and is handled by the except clause of `story_agent`. -/
def afterParts (rpcId parts : Json) (gen : String → Except String String)
    (taskId ctxId ts : String) : Except String HandlerOutcome := do
  let items ← pyIter parts
  let textInput ← loopExtract items
  if textInput = "" then
    return .resp 400 (rpcErr rpcId (-32602) msg32602)
  else
    match gen (prompt textInput) with
    | .error e => .error e
    | .ok content =>
      return .resp 200 (rpcSuccess rpcId (taskResult taskId ctxId ts (pyStrip content)))

/-- The try block of story_agent, lines 71-146, after get_json succeeded
with `body`. Returns the HTTP response, or `.error` when a Python
exception is raised (to be handled by the except clause). Sequencing the
two tests of line 74 without Python short-circuit is equivalent: the `in`
test cannot raise once body.get has succeeded on the same dict. -/
def story_agent_try (body : Json) (gen : String → Except String String)
    (taskId ctxId ts : String) : Except String HandlerOutcome := do
  let jv ← pyGet body "jsonrpc"
  let hasId ← pyContains body "id"
  if !(jv.isStr "2.0") || !hasId then
    let idv ← pyGet body "id"
    return .resp 400 (rpcErr idv (-32600) msg32600)
  else
    let rpcId ← pyIndexKey body "id"
    let method ← pyGet body "method"
    let params ← pyGetD body "params" (.obj [])
    if method.isStr "message/send" then
      let message ← pyGetD params "message" (.obj [])
      let parts ← pyGetD message "parts" (.arr [])
      afterParts rpcId parts gen taskId ctxId ts
    else if method.isStr "execute" then
      let messages ← pyGetD params "messages" (.arr [])
      if messages.truthy then
        let lastMsg ← pyIndexLast messages
        let parts ← pyGetD lastMsg "parts" (.arr [])
        afterParts rpcId parts gen taskId ctxId ts
      else
        afterParts rpcId (.arr []) gen taskId ctxId ts
    else
      return .resp 400 (rpcErr rpcId (-32601) msg32601)

/-- The full view function story_agent (src/app.py lines 65-157) for one
POST. `parsed` is the result of request.get_json(force=True): `none` when
the body is not parseable JSON (get_json raises before `body` is bound, so
the except clause reports id None), `some body` otherwise. The except
clause evaluates body.get("id"): on a non-dict body this second raise
escapes the view function and Flask serves its default 500 page
(`flaskError`). -/
def story_agent (parsed : Option Json) (gen : String → Except String String)
    (taskId ctxId ts : String) : HandlerOutcome :=
  match parsed with
  | none =>
    .resp 500 (rpcErrData .null (-32603) "Internal error" "Failed to decode JSON object")
  | some body =>
    match story_agent_try body gen taskId ctxId ts with
    | .ok r => r
    | .error e =>
      match body with
      | .obj kvs =>
        .resp 500 (rpcErrData ((kvs.lookup "id").getD .null) (-32603) "Internal error" e)
      | _ => .flaskError

/-- src/utils.py lines 1-15: validate a Telex A2A message payload. The
body must be a dict whose "event" equals "message_created" and whose
"message" is a dict carrying a string "text". -/
def is_valid_telex_payload (body : Json) : Bool :=
  match body with
  | .obj kvs =>
    ((kvs.lookup "event").getD .null).isStr "message_created"
    && (match (kvs.lookup "message").getD .null with
        | .obj mkvs =>
          (match (mkvs.lookup "text").getD .null with
           | .str _ => true
           | _ => false)
        | _ => false)
  | _ => false

/-- src/utils.py lines 18-25: format a valid A2A (Telex) response. -/
def make_a2a_response (text : String) : Json :=
  .obj [("data", .obj [("response_type", .str "in_channel"), ("text", .str text)])]

/-- Modelled from the spec: the canned prompt-for-input message the
Telex-variant handler returns on an empty phrase. The spec fixes only
that such a canned message exists, not its wording; src/ does not contain
the Telex handler. -/
def telexPromptMessage : String := "Please provide a phrase for your story."

/-- The message text of body.message.text, for bodies accepted by
is_valid_telex_payload (on which it is always defined). -/
def telexText (body : Json) : String :=
  match body with
  | .obj kvs =>
    match (kvs.lookup "message").getD .null with
    | .obj mkvs =>
      (match (mkvs.lookup "text").getD .null with
       | .str s => s
       | _ => "")
    | _ => ""
  | _ => ""

/-- Modelled from the spec: the Telex-variant request handler. src/ holds
only its helpers (src/utils.py: is_valid_telex_payload, make_a2a_response);
the handler itself is absent from src/, so it is taken from the spec,
section 4.1: an invalid payload yields HTTP 400 with an error field
"Invalid payload"; a valid payload whose trimmed text is empty yields the
canned prompt-for-input message without calling the generator; otherwise
the generator runs and its text is wrapped by make_a2a_response, and a
generator error yields HTTP 500 with error "internal_error" and the error
text as detail. -/
def telex_story_agent (body : Json) (gen : String → Except String String) :
    HandlerOutcome :=
  if is_valid_telex_payload body then
    let text := pyStrip (telexText body)
    if text = "" then
      .resp 200 (make_a2a_response telexPromptMessage)
    else
      match gen (prompt text) with
      | .ok content => .resp 200 (make_a2a_response content)
      | .error e =>
        .resp 500 (.obj [("error", .str "internal_error"), ("detail", .str e)])
  else
    .resp 400 (.obj [("error", .str "Invalid payload")])

/-! ## Helper definitions and lemmas for the proofs -/

/-- A fixed generation collaborator that succeeds, for concrete checks. -/
def genOk : String → Except String String :=
  fun _ => .ok " Once upon a time, something happened. "

/-- A fixed generation collaborator that raises, for concrete checks. -/
def genBoom : String → Except String String := fun _ => .error "boom"

lemma isStr_eq_false {v : Json} {s : String} (h : v ≠ .str s) : v.isStr s = false := by
  cases v <;> simp [Json.isStr]
  intro h2
  exact h (by rw [h2])

/-- The loop of lines 104-107 passes over part p: p is a dict whose break
condition (kind "text" with truthy text) is false. -/
def partPassedOver (p : Json) : Prop :=
  ∃ pkvs, p = Json.obj pkvs ∧
    (((pkvs.lookup "kind").getD .null).isStr "text"
      && ((pkvs.lookup "text").getD .null).truthy) = false

/-- The loop of lines 104-107 breaks at part p with text value v: p is a
dict with kind "text" whose text v is truthy. -/
def partBreaksWith (p v : Json) : Prop :=
  ∃ pkvs, p = Json.obj pkvs ∧
    ((pkvs.lookup "kind").getD .null).isStr "text" = true ∧
    (pkvs.lookup "text").getD .null = v ∧
    v.truthy = true

/-- p is not a part the loop would break at: every dict reading of p
falsifies the break condition (non-dict parts never satisfy it, though
the loop raises on them instead of skipping them). -/
def partNotBreak (p : Json) : Prop :=
  ∀ pkvs, p = Json.obj pkvs →
    (((pkvs.lookup "kind").getD .null).isStr "text"
      && ((pkvs.lookup "text").getD .null).truthy) = false

lemma loopExtract_append_passed {pre : List Json}
    (hpre : ∀ q ∈ pre, partPassedOver q) (l : List Json) :
    loopExtract (pre ++ l) = loopExtract l := by
  induction pre with
  | nil => rfl
  | cons q pre ih =>
    obtain ⟨qkvs, hq, hcond⟩ := hpre q (by simp)
    subst hq
    have hrec := ih (fun r hr => hpre r (by simp [hr]))
    simp [loopExtract, pyGet, hcond, hrec]

lemma loopExtract_all_passed {ps : List Json}
    (h : ∀ q ∈ ps, partPassedOver q) : loopExtract ps = .ok "" := by
  simpa using loopExtract_append_passed h []

lemma loopExtract_break_str {p : Json} {s : String}
    (hp : partBreaksWith p (.str s)) (rest : List Json) :
    loopExtract (p :: rest) = .ok (pyStrip s) := by
  obtain ⟨pkvs, hq, hkind, htxt, htr⟩ := hp
  subst hq
  simp [loopExtract, pyGet, hkind, htxt, htr]

lemma loopExtract_break_nonstr {p v : Json}
    (hp : partBreaksWith p v) (hv : ∀ s, v ≠ .str s) (rest : List Json) :
    loopExtract (p :: rest) = .error "AttributeError: no attribute strip" := by
  obtain ⟨pkvs, hq, hkind, htxt, htr⟩ := hp
  subst hq
  cases v with
  | str s => exact absurd rfl (hv s)
  | null => simp [Json.truthy] at htr
  | bool b => simp [loopExtract, pyGet, hkind, htxt, htr]
  | num n => simp [loopExtract, pyGet, hkind, htxt, htr]
  | arr xs => simp [loopExtract, pyGet, hkind, htxt, htr]
  | obj o => simp [loopExtract, pyGet, hkind, htxt, htr]

lemma loopExtract_error_of_break_nonstr {pre rest : List Json} {p v : Json}
    (hpre : ∀ q ∈ pre, partNotBreak q)
    (hp : partBreaksWith p v) (hv : ∀ s, v ≠ .str s) :
    ∃ e, loopExtract (pre ++ p :: rest) = .error e := by
  induction pre with
  | nil => exact ⟨_, loopExtract_break_nonstr hp hv rest⟩
  | cons q pre ih =>
    cases q with
    | obj qkvs =>
      have hcond := hpre (.obj qkvs) (by simp) qkvs rfl
      obtain ⟨e, he⟩ := ih (fun r hr => hpre r (by simp [hr]))
      exact ⟨e, by simp [loopExtract, pyGet, hcond, he]⟩
    | null => exact ⟨"AttributeError: no attribute get", by simp [loopExtract, pyGet]⟩
    | bool b => exact ⟨"AttributeError: no attribute get", by simp [loopExtract, pyGet]⟩
    | num n => exact ⟨"AttributeError: no attribute get", by simp [loopExtract, pyGet]⟩
    | str s => exact ⟨"AttributeError: no attribute get", by simp [loopExtract, pyGet]⟩
    | arr xs => exact ⟨"AttributeError: no attribute get", by simp [loopExtract, pyGet]⟩

/-- The behavior of the handler once the extraction loop has produced the
phrase without raising: an empty phrase is rejected with -32602 (lines
109-114); otherwise the collaborator runs on the fixed prompt, success is
wrapped (lines 116-146) and a raised error is caught by the except clause
as the -32603 internal error (lines 148-157). -/
def genPhase (idv : Json) (phrase : String) (gen : String → Except String String)
    (taskId ctxId ts : String) : HandlerOutcome :=
  if phrase = "" then .resp 400 (rpcErr idv (-32602) msg32602)
  else
    match gen (prompt phrase) with
    | .ok content =>
      .resp 200 (rpcSuccess idv (taskResult taskId ctxId ts (pyStrip content)))
    | .error e => .resp 500 (rpcErrData idv (-32603) "Internal error" e)

/-- Resolving a message/send request down to the parts list: with a valid
envelope and the params.message.parts chain present, the handler is the
afterParts stage wrapped by the except clause. -/
lemma story_agent_msgsend_master
    (kvs pkvs mkvs : List (String × Json)) (idv : Json) (ps : List Json)
    (gen : String → Except String String) (taskId ctxId ts : String)
    (hrpc : kvs.lookup "jsonrpc" = some (.str "2.0"))
    (hid : kvs.lookup "id" = some idv)
    (hmeth : kvs.lookup "method" = some (.str "message/send"))
    (hparams : kvs.lookup "params" = some (.obj pkvs))
    (hmsg : pkvs.lookup "message" = some (.obj mkvs))
    (hparts : mkvs.lookup "parts" = some (.arr ps)) :
    story_agent (some (.obj kvs)) gen taskId ctxId ts =
      (match afterParts idv (.arr ps) gen taskId ctxId ts with
       | .ok r => r
       | .error e => .resp 500 (rpcErrData idv (-32603) "Internal error" e)) := by
  simp only [story_agent, story_agent_try, pyGet, pyContains, pyIndexKey, pyGetD,
    bind, Except.bind, pure, Except.pure, hrpc, hid, hmeth, hparams, hmsg, hparts,
    Option.getD_some, Option.isSome_some, Json.isStr]
  simp

/-- Resolving an execute request down to the parts list of the last
element of params.messages. -/
lemma story_agent_execute_master
    (kvs pkvs lkvs : List (String × Json)) (idv : Json) (msgs ps : List Json)
    (gen : String → Except String String) (taskId ctxId ts : String)
    (hrpc : kvs.lookup "jsonrpc" = some (.str "2.0"))
    (hid : kvs.lookup "id" = some idv)
    (hmeth : kvs.lookup "method" = some (.str "execute"))
    (hparams : kvs.lookup "params" = some (.obj pkvs))
    (hmsgs : pkvs.lookup "messages" = some (.arr msgs))
    (hlast : msgs.getLast? = some (.obj lkvs))
    (hparts : lkvs.lookup "parts" = some (.arr ps)) :
    story_agent (some (.obj kvs)) gen taskId ctxId ts =
      (match afterParts idv (.arr ps) gen taskId ctxId ts with
       | .ok r => r
       | .error e => .resp 500 (rpcErrData idv (-32603) "Internal error" e)) := by
  have hne : msgs.isEmpty = false := by
    cases msgs with
    | nil => simp at hlast
    | cons a l => rfl
  simp only [story_agent, story_agent_try, pyGet, pyContains, pyIndexKey, pyGetD,
    pyIndexLast, bind, Except.bind, pure, Except.pure, hrpc, hid, hmeth, hparams,
    hmsgs, hlast, hparts, Option.getD_some, Option.isSome_some, Json.isStr,
    Json.truthy, hne]
  simp

/-- The afterParts stage with a successfully extracted phrase, wrapped by
the except clause, is genPhase. -/
lemma afterParts_phase (idv : Json) (ps : List Json) (phrase : String)
    (gen : String → Except String String) (taskId ctxId ts : String)
    (hloop : loopExtract ps = .ok phrase) :
    (match afterParts idv (.arr ps) gen taskId ctxId ts with
     | .ok r => r
     | .error e => .resp 500 (rpcErrData idv (-32603) "Internal error" e)) =
      genPhase idv phrase gen taskId ctxId ts := by
  simp only [afterParts, pyIter, bind, Except.bind, pure, Except.pure, hloop, genPhase]
  by_cases hph : phrase = ""
  · simp [hph]
  · simp only [hph, if_false]
    cases hg : gen (prompt phrase) <;> simp [hg]

/-- The afterParts stage when the extraction loop raises: the except
clause reports the internal error. -/
lemma afterParts_loop_error (idv : Json) (ps : List Json) (e : String)
    (gen : String → Except String String) (taskId ctxId ts : String)
    (hloop : loopExtract ps = .error e) :
    (match afterParts idv (.arr ps) gen taskId ctxId ts with
     | .ok r => r
     | .error e2 => .resp 500 (rpcErrData idv (-32603) "Internal error" e2)) =
      .resp 500 (rpcErrData idv (-32603) "Internal error" e) := by
  simp only [afterParts, pyIter, bind, Except.bind, pure, Except.pure, hloop]

/-- Lines 90-91 of src/app.py: the resolution of the candidate parts
value for a message/send request, with the dict defaults of lines 86, 90
and 91 (params defaults to an empty dict, message to an empty dict, parts
to an empty list, so an absent chain resolves to the empty list rather
than raising). -/
def msgsendParts (body : Json) : Except String Json := do
  let params ← pyGetD body "params" (.obj [])
  let message ← pyGetD params "message" (.obj [])
  pyGetD message "parts" (.arr [])

/-- Lines 93-94 of src/app.py: the resolution of the candidate parts
value for an execute request: the parts of the last element of messages,
an empty list when messages is absent or falsy (the defaults of lines 86,
93 and 94). -/
def executeParts (body : Json) : Except String Json := do
  let params ← pyGetD body "params" (.obj [])
  let messages ← pyGetD params "messages" (.arr [])
  if messages.truthy then do
    let lastMsg ← pyIndexLast messages
    pyGetD lastMsg "parts" (.arr [])
  else
    pure (.arr [])

/-- The try block on a message/send request is exactly: resolve the parts
value per lines 90-91 (errors propagating), then run the afterParts
stage. -/
lemma try_msgsend_chain (kvs : List (String × Json)) (idv : Json)
    (gen : String → Except String String) (taskId ctxId ts : String)
    (hrpc : kvs.lookup "jsonrpc" = some (.str "2.0"))
    (hid : kvs.lookup "id" = some idv)
    (hmeth : kvs.lookup "method" = some (.str "message/send")) :
    story_agent_try (.obj kvs) gen taskId ctxId ts =
      Except.bind (msgsendParts (.obj kvs))
        (fun parts => afterParts idv parts gen taskId ctxId ts) := by
  simp only [story_agent_try, msgsendParts, pyGet, pyContains, pyIndexKey, pyGetD,
    bind, Except.bind, pure, Except.pure, hrpc, hid, hmeth, Option.getD_some,
    Option.isSome_some, Json.isStr]
  cases hP : (kvs.lookup "params").getD (.obj []) with
  | obj pkvs =>
    cases hM : (pkvs.lookup "message").getD (.obj []) <;> simp [hP, hM, Except.bind]
  | null => simp [hP, Except.bind]
  | bool b => simp [hP, Except.bind]
  | num n => simp [hP, Except.bind]
  | str s => simp [hP, Except.bind]
  | arr xs => simp [hP, Except.bind]

/-- The try block on an execute request is exactly: resolve the parts
value per lines 93-94 (errors propagating), then run the afterParts
stage. -/
lemma try_execute_chain (kvs : List (String × Json)) (idv : Json)
    (gen : String → Except String String) (taskId ctxId ts : String)
    (hrpc : kvs.lookup "jsonrpc" = some (.str "2.0"))
    (hid : kvs.lookup "id" = some idv)
    (hmeth : kvs.lookup "method" = some (.str "execute")) :
    story_agent_try (.obj kvs) gen taskId ctxId ts =
      Except.bind (executeParts (.obj kvs))
        (fun parts => afterParts idv parts gen taskId ctxId ts) := by
  simp only [story_agent_try, executeParts, pyGet, pyContains, pyIndexKey, pyGetD,
    pyIndexLast, bind, Except.bind, pure, Except.pure, hrpc, hid, hmeth,
    Option.getD_some, Option.isSome_some, Json.isStr]
  cases hP : (kvs.lookup "params").getD (.obj []) with
  | obj pkvs =>
    cases hM : (pkvs.lookup "messages").getD (.arr []) with
    | arr xs =>
      cases xs with
      | nil => simp [hP, hM, Except.bind, Json.truthy]
      | cons a l =>
        cases hL : (a :: l).getLast? with
        | none => simp at hL
        | some lastMsg =>
          cases lastMsg <;> simp [hP, hM, hL, Except.bind, Json.truthy]
    | str s =>
      by_cases hs : s = ""
      · simp [hP, hM, hs, Except.bind, Json.truthy]
      · cases hC : s.data.getLast? with
        | none => simp [hP, hM, hs, hC, Except.bind, Json.truthy]
        | some c => simp [hP, hM, hs, hC, Except.bind, Json.truthy]
    | bool b => cases b <;> simp [hP, hM, Except.bind, Json.truthy]
    | num n =>
      by_cases hn : n = 0 <;> simp [hP, hM, hn, Except.bind, Json.truthy]
    | null => simp [hP, hM, Except.bind, Json.truthy]
    | obj okvs =>
      cases okvs with
      | nil => simp [hP, hM, Except.bind, Json.truthy]
      | cons a l => simp [hP, hM, Except.bind, Json.truthy]
  | null => simp [hP, Except.bind]
  | bool b => simp [hP, Except.bind]
  | num n => simp [hP, Except.bind]
  | str s => simp [hP, Except.bind]
  | arr xs => simp [hP, Except.bind]

/-- A message/send request whose parts value resolves successfully (also
through the defaults: absent params, message or parts) is the afterParts
stage wrapped by the except clause. -/
lemma story_agent_msgsend_chain (kvs : List (String × Json)) (idv parts : Json)
    (gen : String → Except String String) (taskId ctxId ts : String)
    (hrpc : kvs.lookup "jsonrpc" = some (.str "2.0"))
    (hid : kvs.lookup "id" = some idv)
    (hmeth : kvs.lookup "method" = some (.str "message/send"))
    (hchain : msgsendParts (.obj kvs) = .ok parts) :
    story_agent (some (.obj kvs)) gen taskId ctxId ts =
      (match afterParts idv parts gen taskId ctxId ts with
       | .ok r => r
       | .error e => .resp 500 (rpcErrData idv (-32603) "Internal error" e)) := by
  simp only [story_agent, try_msgsend_chain kvs idv gen taskId ctxId ts hrpc hid hmeth,
    hchain, Except.bind, hid, Option.getD_some]

/-- An execute request whose parts value resolves successfully (also
through the defaults: absent params or messages, empty messages) is the
afterParts stage wrapped by the except clause. -/
lemma story_agent_execute_chain (kvs : List (String × Json)) (idv parts : Json)
    (gen : String → Except String String) (taskId ctxId ts : String)
    (hrpc : kvs.lookup "jsonrpc" = some (.str "2.0"))
    (hid : kvs.lookup "id" = some idv)
    (hmeth : kvs.lookup "method" = some (.str "execute"))
    (hchain : executeParts (.obj kvs) = .ok parts) :
    story_agent (some (.obj kvs)) gen taskId ctxId ts =
      (match afterParts idv parts gen taskId ctxId ts with
       | .ok r => r
       | .error e => .resp 500 (rpcErrData idv (-32603) "Internal error" e)) := by
  simp only [story_agent, try_execute_chain kvs idv gen taskId ctxId ts hrpc hid hmeth,
    hchain, Except.bind, hid, Option.getD_some]

/-- Whether the outcome is a JSON response whose body carries exactly one
of the top-level fields "result" and "error" (false for the framework's
default 500 page, which has no JSON body at all). -/
def oneOfResultOrError : HandlerOutcome → Bool
  | .resp _ (.obj kvs) => ((kvs.lookup "result").isSome) != ((kvs.lookup "error").isSome)
  | _ => false

lemma oneOf_rpcErr (n : Nat) (idv : Json) (code : Int) (msg : String) :
    oneOfResultOrError (.resp n (rpcErr idv code msg)) = true := by
  simp [oneOfResultOrError, rpcErr, List.lookup]

lemma oneOf_rpcErrData (n : Nat) (idv : Json) (code : Int) (msg d : String) :
    oneOfResultOrError (.resp n (rpcErrData idv code msg d)) = true := by
  simp [oneOfResultOrError, rpcErrData, List.lookup]

lemma oneOf_rpcSuccess (n : Nat) (idv result : Json) :
    oneOfResultOrError (.resp n (rpcSuccess idv result)) = true := by
  simp [oneOfResultOrError, rpcSuccess, List.lookup]

lemma afterParts_ok_oneOf (rpcId parts : Json) (gen : String → Except String String)
    (taskId ctxId ts : String) (r : HandlerOutcome)
    (h : afterParts rpcId parts gen taskId ctxId ts = .ok r) :
    oneOfResultOrError r = true := by
  simp only [afterParts, bind, Except.bind, pure, Except.pure] at h
  repeat
    first
    | exact Except.noConfusion h
    | (cases h
       first
       | exact oneOf_rpcErr _ _ _ _
       | exact oneOf_rpcSuccess _ _ _)
    | split at h

lemma story_agent_try_ok_oneOf (body : Json) (gen : String → Except String String)
    (taskId ctxId ts : String) (r : HandlerOutcome)
    (h : story_agent_try body gen taskId ctxId ts = .ok r) :
    oneOfResultOrError r = true := by
  simp only [story_agent_try, bind, Except.bind, pure, Except.pure] at h
  repeat
    first
    | exact Except.noConfusion h
    | exact afterParts_ok_oneOf _ _ _ _ _ _ _ h
    | (cases h
       exact oneOf_rpcErr _ _ _ _)
    | split at h

/-- A message/send request whose extraction loop breaks at part p with a
string text s behaves as genPhase on the stripped s. -/
lemma story_agent_msgsend_phase
    (kvs pkvs mkvs : List (String × Json)) (idv : Json)
    (ps pre rest : List Json) (p : Json) (s : String)
    (gen : String → Except String String) (taskId ctxId ts : String)
    (hrpc : kvs.lookup "jsonrpc" = some (.str "2.0"))
    (hid : kvs.lookup "id" = some idv)
    (hmeth : kvs.lookup "method" = some (.str "message/send"))
    (hparams : kvs.lookup "params" = some (.obj pkvs))
    (hmsg : pkvs.lookup "message" = some (.obj mkvs))
    (hparts : mkvs.lookup "parts" = some (.arr ps))
    (hps : ps = pre ++ p :: rest)
    (hpre : ∀ q ∈ pre, partPassedOver q)
    (hp : partBreaksWith p (.str s)) :
    story_agent (some (.obj kvs)) gen taskId ctxId ts =
      genPhase idv (pyStrip s) gen taskId ctxId ts := by
  rw [story_agent_msgsend_master kvs pkvs mkvs idv ps gen taskId ctxId ts
    hrpc hid hmeth hparams hmsg hparts]
  exact afterParts_phase _ _ _ _ _ _ _
    (by rw [hps, loopExtract_append_passed hpre]; exact loopExtract_break_str hp rest)

/-- An execute request whose last message's extraction loop breaks at part
p with a string text s behaves as genPhase on the stripped s. -/
lemma story_agent_execute_phase
    (kvs pkvs lkvs : List (String × Json)) (idv : Json)
    (msgs ps pre rest : List Json) (p : Json) (s : String)
    (gen : String → Except String String) (taskId ctxId ts : String)
    (hrpc : kvs.lookup "jsonrpc" = some (.str "2.0"))
    (hid : kvs.lookup "id" = some idv)
    (hmeth : kvs.lookup "method" = some (.str "execute"))
    (hparams : kvs.lookup "params" = some (.obj pkvs))
    (hmsgs : pkvs.lookup "messages" = some (.arr msgs))
    (hlast : msgs.getLast? = some (.obj lkvs))
    (hparts : lkvs.lookup "parts" = some (.arr ps))
    (hps : ps = pre ++ p :: rest)
    (hpre : ∀ q ∈ pre, partPassedOver q)
    (hp : partBreaksWith p (.str s)) :
    story_agent (some (.obj kvs)) gen taskId ctxId ts =
      genPhase idv (pyStrip s) gen taskId ctxId ts := by
  rw [story_agent_execute_master kvs pkvs lkvs idv msgs ps gen taskId ctxId ts
    hrpc hid hmeth hparams hmsgs hlast hparts]
  exact afterParts_phase _ _ _ _ _ _ _
    (by rw [hps, loopExtract_append_passed hpre]; exact loopExtract_break_str hp rest)

/-! ## The claims -/

/-- C1 as stated is false at a concrete input: the request has
jsonrpc 2.0, id 1, method message/send, and its parts contain the part
(kind text, text "hi") whose text strips to the non-empty "hi", and the
collaborator succeeds, yet the handler answers 400 with code -32602
instead of the claimed 200 task envelope: the loop of lines 104-107
breaks at the earlier part whose text is the truthy whitespace-only " ",
which strips to empty, and never reaches the "hi" part. -/
theorem c1_counterexample :
    story_agent (some (.obj [("jsonrpc", .str "2.0"), ("id", .num 1),
        ("method", .str "message/send"),
        ("params", .obj [("message", .obj [("parts", .arr
          [ .obj [("kind", .str "text"), ("text", .str " ")],
            .obj [("kind", .str "text"), ("text", .str "hi")]])])])]))
      genOk "T" "C" "TS"
    = .resp 400 (rpcErr (.num 1) (-32602) msg32602)
    ∧ story_agent (some (.obj [("jsonrpc", .str "2.0"), ("id", .num 1),
        ("method", .str "message/send"),
        ("params", .obj [("message", .obj [("parts", .arr
          [ .obj [("kind", .str "text"), ("text", .str " ")],
            .obj [("kind", .str "text"), ("text", .str "hi")]])])])]))
      genOk "T" "C" "TS"
    ≠ .resp 200 (rpcSuccess (.num 1) (taskResult "T" "C" "TS"
        (pyStrip " Once upon a time, something happened. "))) := by
  constructor
  · rfl
  · intro h
    rw [show story_agent (some (.obj [("jsonrpc", .str "2.0"), ("id", .num 1),
        ("method", .str "message/send"),
        ("params", .obj [("message", .obj [("parts", .arr
          [ .obj [("kind", .str "text"), ("text", .str " ")],
            .obj [("kind", .str "text"), ("text", .str "hi")]])])])]))
      genOk "T" "C" "TS" = .resp 400 (rpcErr (.num 1) (-32602) msg32602) from rfl] at h
    injection h with h1 h2
    exact absurd h1 (by decide)

/-- C1 (amended): for every JSON-RPC message/send request with jsonrpc
2.0 and an id, if the FIRST part at which the loop breaks (kind text with
truthy text; earlier parts are passed over) carries a string text that
strips to a non-empty phrase, and the collaborator returns a text whose
stripped form is non-empty, then the handler returns HTTP 200 with the
task envelope: result kind task, status state completed, the timestamp
and fresh ids as produced by the clock and uuid collaborators, empty
artifacts and history, and a single agent text part holding the stripped
collaborator output (non-empty). -/
theorem c1_amended
    (kvs pkvs mkvs : List (String × Json)) (idv : Json)
    (ps pre rest : List Json) (p : Json) (s content : String)
    (gen : String → Except String String) (taskId ctxId ts : String)
    (hrpc : kvs.lookup "jsonrpc" = some (.str "2.0"))
    (hid : kvs.lookup "id" = some idv)
    (hmeth : kvs.lookup "method" = some (.str "message/send"))
    (hparams : kvs.lookup "params" = some (.obj pkvs))
    (hmsg : pkvs.lookup "message" = some (.obj mkvs))
    (hparts : mkvs.lookup "parts" = some (.arr ps))
    (hps : ps = pre ++ p :: rest)
    (hpre : ∀ q ∈ pre, partPassedOver q)
    (hp : partBreaksWith p (.str s))
    (hs : pyStrip s ≠ "")
    (hgen : gen (prompt (pyStrip s)) = .ok content)
    (hc : pyStrip content ≠ "") :
    story_agent (some (.obj kvs)) gen taskId ctxId ts =
      .resp 200 (rpcSuccess idv (taskResult taskId ctxId ts (pyStrip content)))
    ∧ pyStrip content ≠ "" := by
  refine ⟨?_, hc⟩
  rw [story_agent_msgsend_phase kvs pkvs mkvs idv ps pre rest p s gen taskId ctxId ts
    hrpc hid hmeth hparams hmsg hparts hps hpre hp]
  simp [genPhase, hs, hgen]

/-- Witness for C1 (amended) at a concrete message/send request whose
only part is (kind text, text " go "), with the fixed successful
collaborator. -/
theorem c1_witness :
    story_agent (some (.obj [("jsonrpc", .str "2.0"), ("id", .num 5),
        ("method", .str "message/send"),
        ("params", .obj [("message", .obj [("parts", .arr
          [ .obj [("kind", .str "text"), ("text", .str " go ")]])])])]))
      genOk "T" "C" "TS"
    = .resp 200 (rpcSuccess (.num 5) (taskResult "T" "C" "TS"
        (pyStrip " Once upon a time, something happened. ")))
    ∧ pyStrip " Once upon a time, something happened. " ≠ "" :=
  c1_amended _ _ _ (.num 5) _ [] []
    (.obj [("kind", .str "text"), ("text", .str " go ")]) " go " _ genOk "T" "C" "TS"
    rfl rfl rfl rfl rfl rfl rfl (by simp)
    ⟨_, rfl, rfl, rfl, rfl⟩ (by decide) rfl (by decide)

/-- C2 as stated is false at a concrete input: the claim says a part with
whitespace-only text is skipped and later parts are still considered, so
here the phrase would be "hi" and (with a succeeding collaborator) the
handler would answer 200; in fact the loop breaks at the whitespace-only
part, the stripped phrase is empty, and the handler answers 400 with code
-32602 without ever considering the "hi" part. -/
theorem c2_counterexample :
    story_agent (some (.obj [("jsonrpc", .str "2.0"), ("id", .num 2),
        ("method", .str "message/send"),
        ("params", .obj [("message", .obj [("parts", .arr
          [ .obj [("kind", .str "text"), ("text", .str "   ")],
            .obj [("kind", .str "text"), ("text", .str "hi")]])])])]))
      genOk "T" "C" "TS"
    = .resp 400 (rpcErr (.num 2) (-32602) msg32602)
    ∧ story_agent (some (.obj [("jsonrpc", .str "2.0"), ("id", .num 2),
        ("method", .str "message/send"),
        ("params", .obj [("message", .obj [("parts", .arr
          [ .obj [("kind", .str "text"), ("text", .str "   ")],
            .obj [("kind", .str "text"), ("text", .str "hi")]])])])]))
      genOk "T" "C" "TS"
    ≠ .resp 200 (rpcSuccess (.num 2) (taskResult "T" "C" "TS"
        (pyStrip " Once upon a time, something happened. "))) := by
  constructor
  · rfl
  · intro h
    rw [show story_agent (some (.obj [("jsonrpc", .str "2.0"), ("id", .num 2),
        ("method", .str "message/send"),
        ("params", .obj [("message", .obj [("parts", .arr
          [ .obj [("kind", .str "text"), ("text", .str "   ")],
            .obj [("kind", .str "text"), ("text", .str "hi")]])])])]))
      genOk "T" "C" "TS" = .resp 400 (rpcErr (.num 2) (-32602) msg32602) from rfl] at h
    injection h with h1 h2
    exact absurd h1 (by decide)

/-- C2 (amended): for every JSON-RPC request past the jsonrpc, id and
method checks, over BOTH methods: whenever the candidate parts value
resolves to a list ps (per lines 90-91 for message/send and lines 93-94
for execute, so also through the defaults: absent params, message or
parts, and absent or empty messages, which all resolve to the empty
list), the extraction scans ps in order and breaks at the FIRST part
whose kind is text and whose text is a non-empty string; parts whose text
is empty, absent, or of the wrong kind are skipped. The extracted phrase
is that text stripped of whitespace; if it strips to empty the handler
answers 400 with code -32602 echoing the id, without considering later
parts (genPhase spells this out); if no part qualifies the handler
answers 400 with code -32602 echoing the id. -/
theorem c2_amended (kvs : List (String × Json)) (idv : Json)
    (gen : String → Except String String) (taskId ctxId ts : String)
    (hrpc : kvs.lookup "jsonrpc" = some (.str "2.0"))
    (hid : kvs.lookup "id" = some idv) :
    (∀ ps pre rest : List Json, ∀ p : Json, ∀ s : String,
       ((kvs.lookup "method" = some (.str "message/send") ∧
           msgsendParts (.obj kvs) = .ok (.arr ps)) ∨
        (kvs.lookup "method" = some (.str "execute") ∧
           executeParts (.obj kvs) = .ok (.arr ps))) →
       ps = pre ++ p :: rest → (∀ q ∈ pre, partPassedOver q) →
       partBreaksWith p (.str s) →
       story_agent (some (.obj kvs)) gen taskId ctxId ts =
         genPhase idv (pyStrip s) gen taskId ctxId ts)
    ∧ (∀ ps : List Json,
       ((kvs.lookup "method" = some (.str "message/send") ∧
           msgsendParts (.obj kvs) = .ok (.arr ps)) ∨
        (kvs.lookup "method" = some (.str "execute") ∧
           executeParts (.obj kvs) = .ok (.arr ps))) →
       (∀ q ∈ ps, partPassedOver q) →
       story_agent (some (.obj kvs)) gen taskId ctxId ts =
         .resp 400 (rpcErr idv (-32602) msg32602)) := by
  have hbridge : ∀ ps : List Json,
      ((kvs.lookup "method" = some (.str "message/send") ∧
          msgsendParts (.obj kvs) = .ok (.arr ps)) ∨
       (kvs.lookup "method" = some (.str "execute") ∧
          executeParts (.obj kvs) = .ok (.arr ps))) →
      story_agent (some (.obj kvs)) gen taskId ctxId ts =
        (match afterParts idv (.arr ps) gen taskId ctxId ts with
         | .ok r => r
         | .error e => .resp 500 (rpcErrData idv (-32603) "Internal error" e)) := by
    intro ps h
    rcases h with ⟨hmeth, hchain⟩ | ⟨hmeth, hchain⟩
    · exact story_agent_msgsend_chain kvs idv (.arr ps) gen taskId ctxId ts
        hrpc hid hmeth hchain
    · exact story_agent_execute_chain kvs idv (.arr ps) gen taskId ctxId ts
        hrpc hid hmeth hchain
  constructor
  · intro ps pre rest p s h hps hpre hp
    rw [hbridge ps h]
    exact afterParts_phase _ _ _ _ _ _ _
      (by rw [hps, loopExtract_append_passed hpre]; exact loopExtract_break_str hp rest)
  · intro ps h hall
    rw [hbridge ps h,
      afterParts_phase idv ps "" gen taskId ctxId ts (loopExtract_all_passed hall)]
    simp [genPhase]

/-- Witness for C2 (amended) at a concrete request: a data part and an
empty-text part are skipped, the loop breaks at the part with text
" tale ", and the outcome equals genPhase on the stripped phrase "tale";
instantiating the no-match conjunct on a request with only skipped parts
gives the -32602 response. -/
theorem c2_witness :
    story_agent (some (.obj [("jsonrpc", .str "2.0"), ("id", .num 6),
        ("method", .str "message/send"),
        ("params", .obj [("message", .obj [("parts", .arr
          [ .obj [("kind", .str "data"), ("text", .str "x")],
            .obj [("kind", .str "text"), ("text", .str "")],
            .obj [("kind", .str "text"), ("text", .str " tale ")]])])])]))
      genOk "T" "C" "TS"
    = genPhase (.num 6) (pyStrip " tale ") genOk "T" "C" "TS" :=
  (c2_amended
    [("jsonrpc", .str "2.0"), ("id", .num 6), ("method", .str "message/send"),
     ("params", .obj [("message", .obj [("parts", .arr
       [ .obj [("kind", .str "data"), ("text", .str "x")],
         .obj [("kind", .str "text"), ("text", .str "")],
         .obj [("kind", .str "text"), ("text", .str " tale ")]])])])]
    (.num 6) genOk "T" "C" "TS" rfl rfl).1
    [ .obj [("kind", .str "data"), ("text", .str "x")],
      .obj [("kind", .str "text"), ("text", .str "")],
      .obj [("kind", .str "text"), ("text", .str " tale ")]]
    [.obj [("kind", .str "data"), ("text", .str "x")],
     .obj [("kind", .str "text"), ("text", .str "")]]
    [] (.obj [("kind", .str "text"), ("text", .str " tale ")]) " tale "
    (Or.inl ⟨rfl, rfl⟩) rfl
    (by intro q hq
        fin_cases hq
        · exact ⟨_, rfl, by decide⟩
        · exact ⟨_, rfl, by decide⟩)
    ⟨_, rfl, rfl, rfl, rfl⟩

/-- C3 as stated is false at a concrete input: for the body that is the
valid JSON array with no elements, the claim demands HTTP 400 with code
-32600 and a null id; in fact body.get raises AttributeError, the except
clause raises again at body.get("id"), the exception escapes the view
function, and Flask serves its default 500 page instead of the claimed
JSON-RPC error. -/
theorem c3_counterexample :
    story_agent (some (.arr [])) genOk "T" "C" "TS" = .flaskError ∧
    story_agent (some (.arr [])) genOk "T" "C" "TS" ≠
      .resp 400 (rpcErr .null (-32600) msg32600) :=
  ⟨rfl, fun h => HandlerOutcome.noConfusion h⟩

/-- C3 (amended): for every POST body that parses to a JSON OBJECT where
jsonrpc is not the string 2.0 or the id field is absent, the handler
returns HTTP 400 with a JSON-RPC error body of code -32600, echoing the
request id if present and null otherwise. (Bodies that are valid JSON but
not objects escape the except clause and get the framework default 500
page; unparseable bodies get the -32603 internal error with null id.) -/
theorem c3_amended (kvs : List (String × Json))
    (gen : String → Except String String) (taskId ctxId ts : String)
    (h : kvs.lookup "jsonrpc" ≠ some (Json.str "2.0") ∨ kvs.lookup "id" = none) :
    story_agent (some (.obj kvs)) gen taskId ctxId ts =
      .resp 400 (rpcErr ((kvs.lookup "id").getD .null) (-32600) msg32600) := by
  have hcond : (!((kvs.lookup "jsonrpc").getD .null).isStr "2.0"
      || !(kvs.lookup "id").isSome) = true := by
    rcases h with h | h
    · cases hl : kvs.lookup "jsonrpc" with
      | none => simp [Json.isStr]
      | some v =>
        rw [hl] at h
        have hv : v ≠ Json.str "2.0" := fun hv => h (by rw [hv])
        simp [isStr_eq_false hv]
    · simp [h]
  simp only [story_agent, story_agent_try, pyGet, pyContains, bind, Except.bind,
    pure, Except.pure, hcond]
  simp

/-- Witness for C3 (amended) at the concrete object body that has an id
but no jsonrpc field. -/
theorem c3_witness :
    story_agent (some (.obj [("id", .num 1)])) genOk "T" "C" "TS" =
      .resp 400 (rpcErr (.num 1) (-32600) msg32600) :=
  c3_amended [("id", .num 1)] genOk "T" "C" "TS" (Or.inl (by simp [List.lookup]))

/-- C4: for every JSON-RPC body with jsonrpc 2.0 and an id, any method
value other than the strings message/send and execute (including an
absent method, which reads as null) yields HTTP 400 with error code
-32601, echoing the request id. -/
theorem c4_unsupported_method (kvs : List (String × Json)) (idv : Json)
    (gen : String → Except String String) (taskId ctxId ts : String)
    (hrpc : kvs.lookup "jsonrpc" = some (.str "2.0"))
    (hid : kvs.lookup "id" = some idv)
    (hm1 : (kvs.lookup "method").getD .null ≠ .str "message/send")
    (hm2 : (kvs.lookup "method").getD .null ≠ .str "execute") :
    story_agent (some (.obj kvs)) gen taskId ctxId ts =
      .resp 400 (rpcErr idv (-32601) msg32601) := by
  simp only [story_agent, story_agent_try, pyGet, pyContains, pyIndexKey, pyGetD,
    bind, Except.bind]
  simp only [hrpc, hid]
  simp only [isStr_eq_false hm1, isStr_eq_false hm2]
  simp [Json.isStr, pure, Except.pure]

/-- Witness for C4 at a concrete request with the unsupported method
"tasks/get". -/
theorem c4_witness :
    story_agent (some (.obj [("jsonrpc", .str "2.0"), ("id", .num 3),
        ("method", .str "tasks/get")])) genOk "T" "C" "TS" =
      .resp 400 (rpcErr (.num 3) (-32601) msg32601) :=
  c4_unsupported_method
    [("jsonrpc", .str "2.0"), ("id", .num 3), ("method", .str "tasks/get")]
    (.num 3) genOk "T" "C" "TS" rfl rfl (by simp [List.lookup]) (by simp [List.lookup])

/-- C5: for method execute the candidate parts come from the last element
of params.messages only. First conjunct: two requests identical except in
the elements of messages before the last one produce the same outcome, for
every generator, task id, context id and timestamp. Second and third
conjunct: with messages empty, or absent from params, the candidate list
is empty, so the handler answers 400 with code -32602. -/
theorem c5_execute_last_only (idv m : Json) (extra : List (String × Json))
    (xs ys : List Json) (gen : String → Except String String)
    (taskId ctxId ts : String)
    (hextra : extra.lookup "messages" = none) :
    (story_agent (some (.obj [("jsonrpc", .str "2.0"), ("id", idv),
        ("method", .str "execute"),
        ("params", .obj (("messages", .arr (xs ++ [m])) :: extra))]))
        gen taskId ctxId ts =
      story_agent (some (.obj [("jsonrpc", .str "2.0"), ("id", idv),
        ("method", .str "execute"),
        ("params", .obj (("messages", .arr (ys ++ [m])) :: extra))]))
        gen taskId ctxId ts)
    ∧ story_agent (some (.obj [("jsonrpc", .str "2.0"), ("id", idv),
        ("method", .str "execute"),
        ("params", .obj (("messages", .arr []) :: extra))])) gen taskId ctxId ts =
        .resp 400 (rpcErr idv (-32602) msg32602)
    ∧ story_agent (some (.obj [("jsonrpc", .str "2.0"), ("id", idv),
        ("method", .str "execute"),
        ("params", .obj extra)])) gen taskId ctxId ts =
        .resp 400 (rpcErr idv (-32602) msg32602) := by
  refine ⟨?_, ?_, ?_⟩
  · have hx : (xs ++ [m]).isEmpty = false := by cases xs <;> rfl
    have hy : (ys ++ [m]).isEmpty = false := by cases ys <;> rfl
    simp only [story_agent, story_agent_try, afterParts, pyGet, pyContains,
      pyIndexKey, pyGetD, pyIndexLast, pyIter, bind, Except.bind, pure,
      Except.pure, List.lookup, Json.isStr, Json.truthy, List.getLast?_concat,
      hx, hy]
    simp
  · rfl
  · simp only [story_agent, story_agent_try, afterParts, loopExtract, pyGet,
      pyContains, pyIndexKey, pyGetD, pyIndexLast, pyIter, bind, Except.bind,
      pure, Except.pure, List.lookup, Json.isStr, Json.truthy, hextra]
    simp [hextra]

/-- Witness for C5 at concrete values: the prefixes differ in length and
content while the shared final message carries the part "go on". -/
theorem c5_witness :
    (story_agent (some (.obj [("jsonrpc", .str "2.0"), ("id", .num 9),
        ("method", .str "execute"),
        ("params", .obj [("messages", .arr
          ([.num 1, .str "junk"] ++
           [.obj [("parts", .arr [.obj [("kind", .str "text"), ("text", .str "go on")]])]]))])]))
        genOk "T" "C" "TS" =
      story_agent (some (.obj [("jsonrpc", .str "2.0"), ("id", .num 9),
        ("method", .str "execute"),
        ("params", .obj [("messages", .arr
          ([] ++
           [.obj [("parts", .arr [.obj [("kind", .str "text"), ("text", .str "go on")]])]]))])]))
        genOk "T" "C" "TS")
    ∧ story_agent (some (.obj [("jsonrpc", .str "2.0"), ("id", .num 9),
        ("method", .str "execute"),
        ("params", .obj [("messages", .arr [])])])) genOk "T" "C" "TS" =
        .resp 400 (rpcErr (.num 9) (-32602) msg32602)
    ∧ story_agent (some (.obj [("jsonrpc", .str "2.0"), ("id", .num 9),
        ("method", .str "execute"),
        ("params", .obj [])])) genOk "T" "C" "TS" =
        .resp 400 (rpcErr (.num 9) (-32602) msg32602) :=
  c5_execute_last_only (.num 9)
    (.obj [("parts", .arr [.obj [("kind", .str "text"), ("text", .str "go on")]])])
    [] [.num 1, .str "junk"] [] genOk "T" "C" "TS" rfl

/-- C6: for every JSON-RPC request that reaches the delegate call (the
envelope checks pass and the extraction loop breaks at a part with a
string text whose stripped form is non-empty), a raising collaborator is
caught and the handler returns HTTP 500 with the -32603 Internal error
body carrying the error text as data.details and echoing the request id.
Both request shapes that can reach the call are covered: message/send
(first conjunct) and execute (second conjunct). -/
theorem c6_provider_failure (kvs : List (String × Json)) (idv : Json) (e : String)
    (gen : String → Except String String) (taskId ctxId ts : String)
    (hrpc : kvs.lookup "jsonrpc" = some (.str "2.0"))
    (hid : kvs.lookup "id" = some idv)
    (hgen : ∀ q, gen q = .error e) :
    (∀ pkvs mkvs : List (String × Json), ∀ ps pre rest : List Json, ∀ p : Json, ∀ s : String,
       kvs.lookup "method" = some (.str "message/send") →
       kvs.lookup "params" = some (.obj pkvs) →
       pkvs.lookup "message" = some (.obj mkvs) →
       mkvs.lookup "parts" = some (.arr ps) →
       ps = pre ++ p :: rest → (∀ q ∈ pre, partPassedOver q) →
       partBreaksWith p (.str s) → pyStrip s ≠ "" →
       story_agent (some (.obj kvs)) gen taskId ctxId ts =
         .resp 500 (rpcErrData idv (-32603) "Internal error" e))
    ∧ (∀ pkvs lkvs : List (String × Json), ∀ msgs ps pre rest : List Json, ∀ p : Json, ∀ s : String,
       kvs.lookup "method" = some (.str "execute") →
       kvs.lookup "params" = some (.obj pkvs) →
       pkvs.lookup "messages" = some (.arr msgs) →
       msgs.getLast? = some (.obj lkvs) →
       lkvs.lookup "parts" = some (.arr ps) →
       ps = pre ++ p :: rest → (∀ q ∈ pre, partPassedOver q) →
       partBreaksWith p (.str s) → pyStrip s ≠ "" →
       story_agent (some (.obj kvs)) gen taskId ctxId ts =
         .resp 500 (rpcErrData idv (-32603) "Internal error" e)) := by
  constructor
  · intro pkvs mkvs ps pre rest p s hmeth hparams hmsg hparts hps hpre hp hs
    rw [story_agent_msgsend_phase kvs pkvs mkvs idv ps pre rest p s gen taskId ctxId ts
      hrpc hid hmeth hparams hmsg hparts hps hpre hp]
    simp [genPhase, hs, hgen]
  · intro pkvs lkvs msgs ps pre rest p s hmeth hparams hmsgs hlast hparts hps hpre hp hs
    rw [story_agent_execute_phase kvs pkvs lkvs idv msgs ps pre rest p s gen taskId ctxId ts
      hrpc hid hmeth hparams hmsgs hlast hparts hps hpre hp]
    simp [genPhase, hs, hgen]

/-- Witness for C6 at a concrete message/send request whose part is
(kind text, text "dragon") with the fixed raising collaborator. -/
theorem c6_witness :
    story_agent (some (.obj [("jsonrpc", .str "2.0"), ("id", .num 4),
        ("method", .str "message/send"),
        ("params", .obj [("message", .obj [("parts", .arr
          [ .obj [("kind", .str "text"), ("text", .str "dragon")]])])])]))
      genBoom "T" "C" "TS"
    = .resp 500 (rpcErrData (.num 4) (-32603) "Internal error" "boom") :=
  (c6_provider_failure
    [("jsonrpc", .str "2.0"), ("id", .num 4), ("method", .str "message/send"),
     ("params", .obj [("message", .obj [("parts", .arr
       [ .obj [("kind", .str "text"), ("text", .str "dragon")]])])])]
    (.num 4) "boom" genBoom "T" "C" "TS" rfl rfl (fun _ => rfl)).1
    [("message", .obj [("parts", .arr
       [ .obj [("kind", .str "text"), ("text", .str "dragon")]])])]
    [("parts", .arr [ .obj [("kind", .str "text"), ("text", .str "dragon")]])]
    [ .obj [("kind", .str "text"), ("text", .str "dragon")]]
    [] [] (.obj [("kind", .str "text"), ("text", .str "dragon")]) "dragon"
    rfl rfl rfl rfl rfl (by simp)
    ⟨_, rfl, rfl, rfl, rfl⟩ (by decide)

/-- The field k of a JSON object (none for non-objects). -/
def jfield (body : Json) (k : String) : Option Json :=
  match body with
  | .obj kvs => kvs.lookup k
  | _ => none

/-- The field k2 of the object held in field k1. -/
def jfield2 (body : Json) (k1 k2 : String) : Option Json :=
  match jfield body k1 with
  | some m => jfield m k2
  | none => none

lemma isStr_true_iff {v : Json} {s : String} : v.isStr s = true ↔ v = .str s := by
  cases v <;> simp [Json.isStr]

/-- Acceptance by is_valid_telex_payload decomposed into the three
conditions of src/utils.py. -/
lemma is_valid_telex_components {body : Json}
    (hv : is_valid_telex_payload body = true) :
    jfield body "event" = some (Json.str "message_created") ∧
    (∃ mkvs, jfield body "message" = some (Json.obj mkvs)) ∧
    (∃ s, jfield2 body "message" "text" = some (Json.str s)) := by
  cases body with
  | obj kvs =>
    simp only [is_valid_telex_payload, Bool.and_eq_true] at hv
    obtain ⟨hev, hmsg⟩ := hv
    refine ⟨?_, ?_, ?_⟩
    · cases hl : kvs.lookup "event" with
      | none => rw [hl] at hev; simp [Json.isStr] at hev
      | some v =>
        rw [hl] at hev
        simp only [Option.getD_some] at hev
        rw [isStr_true_iff.mp hev] at hl
        simpa [jfield] using hl
    · cases hl : kvs.lookup "message" with
      | none => rw [hl] at hmsg; simp at hmsg
      | some v =>
        rw [hl] at hmsg
        simp only [Option.getD_some] at hmsg
        cases v <;> simp at hmsg
        exact ⟨_, by simpa [jfield] using hl⟩
    · cases hl : kvs.lookup "message" with
      | none => rw [hl] at hmsg; simp at hmsg
      | some v =>
        rw [hl] at hmsg
        simp only [Option.getD_some] at hmsg
        cases v with
        | obj mkvs =>
          have hmsg2 : (match (mkvs.lookup "text").getD Json.null with
            | Json.str _ => true
            | _ => false) = true := hmsg
          cases ht : mkvs.lookup "text" with
          | none => rw [ht] at hmsg2; simp at hmsg2
          | some w =>
            rw [ht] at hmsg2
            simp only [Option.getD_some] at hmsg2
            cases w with
            | str s2 => exact ⟨s2, by simp [jfield2, jfield, hl, ht]⟩
            | null => simp at hmsg2
            | bool b => simp at hmsg2
            | num n => simp at hmsg2
            | arr a2 => simp at hmsg2
            | obj o2 => simp at hmsg2
        | null => simp at hmsg
        | bool b => simp at hmsg
        | num n => simp at hmsg
        | str s => simp at hmsg
        | arr xs => simp at hmsg
  | null => simp [is_valid_telex_payload] at hv
  | bool b => simp [is_valid_telex_payload] at hv
  | num n => simp [is_valid_telex_payload] at hv
  | str s => simp [is_valid_telex_payload] at hv
  | arr xs => simp [is_valid_telex_payload] at hv

/-- C7: every Telex-variant POST body that is missing event (also any
non-object body), or whose event is not the string message_created, or
whose message is not an object, or whose message.text is not a string,
gets HTTP 400 with the body carrying error "Invalid payload".
Spec-modelled handler: src/ holds only the validator; the Telex handler
itself follows the spec. -/
theorem c7_invalid_telex_payload (body : Json) (gen : String → Except String String)
    (h : jfield body "event" ≠ some (Json.str "message_created")
       ∨ (∀ mkvs, jfield body "message" ≠ some (Json.obj mkvs))
       ∨ (∀ s, jfield2 body "message" "text" ≠ some (Json.str s))) :
    telex_story_agent body gen = .resp 400 (.obj [("error", .str "Invalid payload")]) := by
  have hinv : is_valid_telex_payload body = false := by
    cases hv : is_valid_telex_payload body with
    | false => rfl
    | true =>
      obtain ⟨h1, ⟨mkvs, h2⟩, ⟨s, h3⟩⟩ := is_valid_telex_components hv
      rcases h with h | h | h
      · exact absurd h1 h
      · exact absurd h2 (h mkvs)
      · exact absurd h3 (h s)
  simp [telex_story_agent, hinv]

/-- Witness for C7 at the concrete payload with event message_created but
a numeric message.text. -/
theorem c7_witness :
    telex_story_agent (.obj [("event", .str "message_created"),
        ("message", .obj [("text", .num 3)])]) genOk =
      .resp 400 (.obj [("error", .str "Invalid payload")]) :=
  c7_invalid_telex_payload _ genOk
    (Or.inr (Or.inr (fun s h => by simp [jfield2, jfield, List.lookup] at h)))

/-- C8: every valid Telex payload whose text strips to the empty string
(in particular the payload with event message_created and empty
message.text) gets HTTP 200 with the canned prompt-for-input message, and
the generation collaborator is never invoked: the outcome is the same
constant for every collaborator gen. Spec-modelled handler, as for C7. -/
theorem c8_telex_empty_text (body : Json) (gen : String → Except String String)
    (hval : is_valid_telex_payload body = true)
    (hempty : pyStrip (telexText body) = "") :
    telex_story_agent body gen = .resp 200 (make_a2a_response telexPromptMessage) := by
  simp [telex_story_agent, hval, hempty]

/-- Witness for C8 at the concrete empty-text payload, instantiated with
the RAISING collaborator: the response is still the canned 200 prompt, so
no generation happened. -/
theorem c8_witness :
    telex_story_agent (.obj [("event", .str "message_created"),
        ("message", .obj [("text", .str "")])]) genBoom =
      .resp 200 (make_a2a_response telexPromptMessage) :=
  c8_telex_empty_text _ genBoom rfl rfl

/-- C9 as stated is false at a concrete input: a POST whose body is the
valid JSON array holding the number 1 makes the except clause itself
raise, so Flask serves its default 500 page, which is not a JSON body and
carries neither a result field nor an error field. -/
theorem c9_counterexample :
    story_agent (some (.arr [.num 1])) genOk "T" "C" "TS" = .flaskError ∧
    oneOfResultOrError (story_agent (some (.arr [.num 1])) genOk "T" "C" "TS") = false :=
  ⟨rfl, rfl⟩

/-- C9 (amended): for every POST whose body is unparseable JSON or parses
to a JSON object, the handler returns a JSON body carrying exactly one of
the fields result and error, never both and never neither; bodies that
parse to a non-object are the single exception, escaping to the framework
default 500 page. -/
theorem c9_amended (parsed : Option Json) (gen : String → Except String String)
    (taskId ctxId ts : String)
    (h : parsed = none ∨ ∃ kvs, parsed = some (.obj kvs)) :
    oneOfResultOrError (story_agent parsed gen taskId ctxId ts) = true := by
  rcases h with h | ⟨kvs, h⟩ <;> subst h
  · exact oneOf_rpcErrData _ _ _ _ _
  · cases htry : story_agent_try (.obj kvs) gen taskId ctxId ts with
    | ok r =>
      simp only [story_agent, htry]
      exact story_agent_try_ok_oneOf _ _ _ _ _ _ htry
    | error e =>
      simp only [story_agent, htry]
      exact oneOf_rpcErrData _ _ _ _ _

/-- Witness for C9 (amended) at a concrete object body (an unsupported
method, exercising an error envelope). -/
theorem c9_witness :
    oneOfResultOrError (story_agent (some (.obj [("jsonrpc", .str "2.0"),
      ("id", .num 8), ("method", .str "ping")])) genOk "T" "C" "TS") = true :=
  c9_amended (some (.obj [("jsonrpc", .str "2.0"), ("id", .num 8),
    ("method", .str "ping")])) genOk "T" "C" "TS" (Or.inr ⟨_, rfl⟩)

/-- C10: for every JSON-RPC request past the jsonrpc, id and method
checks, over BOTH methods (the candidate list resolving per lines 90-91
for message/send or lines 93-94 for execute), if the first part at which
the extraction loop would break (kind text with truthy text; earlier
parts do not satisfy the break condition) carries a NON-STRING text value
such as a number, the call to .strip() raises, the except clause catches
it, and the handler returns HTTP 500 with error code -32603 echoing the
request id (an internal error, not a 400 validation error). -/
theorem c10_truthy_nonstring_text
    (kvs : List (String × Json)) (idv v : Json)
    (ps pre rest : List Json) (p : Json)
    (gen : String → Except String String) (taskId ctxId ts : String)
    (hrpc : kvs.lookup "jsonrpc" = some (.str "2.0"))
    (hid : kvs.lookup "id" = some idv)
    (hmeth : (kvs.lookup "method" = some (.str "message/send") ∧
                msgsendParts (.obj kvs) = .ok (.arr ps)) ∨
             (kvs.lookup "method" = some (.str "execute") ∧
                executeParts (.obj kvs) = .ok (.arr ps)))
    (hps : ps = pre ++ p :: rest)
    (hpre : ∀ q ∈ pre, partNotBreak q)
    (hp : partBreaksWith p v)
    (hv : ∀ s, v ≠ .str s) :
    ∃ d, story_agent (some (.obj kvs)) gen taskId ctxId ts =
      .resp 500 (rpcErrData idv (-32603) "Internal error" d) := by
  obtain ⟨e, he⟩ := @loopExtract_error_of_break_nonstr pre rest p v hpre hp hv
  refine ⟨e, ?_⟩
  have hbridge : story_agent (some (.obj kvs)) gen taskId ctxId ts =
      (match afterParts idv (.arr ps) gen taskId ctxId ts with
       | .ok r => r
       | .error e2 => .resp 500 (rpcErrData idv (-32603) "Internal error" e2)) := by
    rcases hmeth with ⟨hm, hchain⟩ | ⟨hm, hchain⟩
    · exact story_agent_msgsend_chain kvs idv (.arr ps) gen taskId ctxId ts
        hrpc hid hm hchain
    · exact story_agent_execute_chain kvs idv (.arr ps) gen taskId ctxId ts
        hrpc hid hm hchain
  rw [hbridge]
  exact afterParts_loop_error _ _ _ _ _ _ _ (by rw [hps]; exact he)

/-- Witness for C10 at a concrete execute request whose last message's
only part carries the numeric text 5. -/
theorem c10_witness :
    ∃ d, story_agent (some (.obj [("jsonrpc", .str "2.0"), ("id", .num 7),
        ("method", .str "execute"),
        ("params", .obj [("messages", .arr
          [ .obj [("parts", .arr
              [ .obj [("kind", .str "text"), ("text", .num 5)]])]])])]))
      genOk "T" "C" "TS"
    = .resp 500 (rpcErrData (.num 7) (-32603) "Internal error" d) :=
  c10_truthy_nonstring_text
    [("jsonrpc", .str "2.0"), ("id", .num 7), ("method", .str "execute"),
     ("params", .obj [("messages", .arr
       [ .obj [("parts", .arr
           [ .obj [("kind", .str "text"), ("text", .num 5)]])]])])]
    (.num 7) (.num 5)
    [ .obj [("kind", .str "text"), ("text", .num 5)]]
    [] [] (.obj [("kind", .str "text"), ("text", .num 5)])
    genOk "T" "C" "TS"
    rfl rfl (Or.inr ⟨rfl, rfl⟩) rfl (by simp)
    ⟨_, rfl, rfl, rfl, rfl⟩
    (fun s h => Json.noConfusion h)

end StoryAgent
